import Mathlib

/-!
Verification development for the `bundle-woff2-fonts.py` asset-bundling
pipeline.  The Python source is shallow-embedded below: the codepoint
policy, the family catalog, the per-family module emitter and the manifest
builder become executable Lean definitions; the external font-subsetting
collaborator (fontTools) and the on-disk font files are modelled as
oracles (`subset : String → Except String (List Nat)` giving the WOFF2
payload bytes of a source file, and `ex : String → Bool` giving file
existence).
-/

set_option linter.unusedVariables false

/-! ### Codepoint policy (lines 29-48 of the script) -/

-- UNICODE_RANGES: inclusive (start, end) pairs, as declared in the script.
def UNICODE_RANGES : List (Nat × Nat) :=
  [(0x0020, 0x024F),
   (0x2000, 0x206F),
   (0x20A0, 0x20CF),
   (0x2100, 0x214F),
   (0x2190, 0x21FF),
   (0x2200, 0x22FF),
   (0x2300, 0x23FF),
   (0x25A0, 0x25FF),
   (0x2600, 0x26FF),
   (0xFB00, 0xFB06),
   (0xFEFF, 0xFEFF),
   (0xFFFC, 0xFFFD)]

-- Membership in one inclusive range.
def inRange (c : Nat) (r : Nat × Nat) : Bool :=
  decide (r.1 ≤ c) && decide (c ≤ r.2)

-- The script builds `CODEPOINTS` as the union of all ranges; membership in
-- that set is membership in some declared range.
def CODEPOINTS (c : Nat) : Bool :=
  UNICODE_RANGES.any (inRange c)

-- A range list is well-formed when each range is nonempty (start ≤ end) and
-- consecutive ranges are strictly separated (end < next start).
def sortedRanges : List (Nat × Nat) → Bool
  | [] => true
  | [r] => decide (r.1 ≤ r.2)
  | r :: s :: rest => decide (r.1 ≤ r.2) && decide (r.2 < s.1) && sortedRanges (s :: rest)

-- `gapAt l c`: c lies strictly between two consecutive declared ranges.
def gapAt : List (Nat × Nat) → Nat → Bool
  | r :: s :: rest, c => (decide (r.2 < c) && decide (c < s.1)) || gapAt (s :: rest) c
  | _, _ => false

/-! ### Data model (FamilyDefinition, catalog lines 73-432) -/

-- One style variant: a tag (regular/bold/italic/boldItalic) and the source
-- font file name it maps to.  The Python `variants` dict is an ordered
-- mapping, embedded as a list in declaration order.
structure Variant where
  tag : String
  file : String
deriving DecidableEq

-- One catalog entry of FONT_FAMILIES: the dict key (module name), the
-- register_as display name, the optional substitute_for legacy name and the
-- ordered variant mapping.
structure Family where
  moduleKey : String
  register_as : String
  substitute_for : Option String
  variants : List Variant
deriving DecidableEq

-- The semantic value of one rendered manifest entry (interface
-- BundledFontEntry of the generated manifest.ts).
structure BundledFontEntry where
  module : String
  registerAs : String
  substituteFor : Option String
  variants : List String
deriving DecidableEq

def carlito : Family :=
  ⟨"carlito", "Carlito", some "Calibri",
    [⟨"regular", "Carlito-Regular.ttf"⟩, ⟨"bold", "Carlito-Bold.ttf"⟩,
     ⟨"italic", "Carlito-Italic.ttf"⟩, ⟨"boldItalic", "Carlito-BoldItalic.ttf"⟩]⟩

def calibriLight : Family :=
  ⟨"calibri-light", "Calibri Light", some "Calibri Light",
    [⟨"regular", "Carlito-Regular.ttf"⟩]⟩

-- FONT_FAMILIES, in the script's declaration order (a Python dict preserves
-- insertion order; the pipeline only ever iterates it sorted by key).
def FONT_FAMILIES : List Family :=
  [carlito,
   calibriLight,
   ⟨"caladea", "Caladea", some "Cambria",
     [⟨"regular", "Caladea-Regular.ttf"⟩, ⟨"bold", "Caladea-Bold.ttf"⟩,
      ⟨"italic", "Caladea-Italic.ttf"⟩, ⟨"boldItalic", "Caladea-BoldItalic.ttf"⟩]⟩,
   ⟨"liberation-sans", "Liberation Sans", some "Arial",
     [⟨"regular", "LiberationSans-Regular.ttf"⟩, ⟨"bold", "LiberationSans-Bold.ttf"⟩,
      ⟨"italic", "LiberationSans-Italic.ttf"⟩, ⟨"boldItalic", "LiberationSans-BoldItalic.ttf"⟩]⟩,
   ⟨"liberation-serif", "Liberation Serif", some "Times New Roman",
     [⟨"regular", "LiberationSerif-Regular.ttf"⟩, ⟨"bold", "LiberationSerif-Bold.ttf"⟩,
      ⟨"italic", "LiberationSerif-Italic.ttf"⟩, ⟨"boldItalic", "LiberationSerif-BoldItalic.ttf"⟩]⟩,
   ⟨"liberation-mono", "Liberation Mono", some "Courier New",
     [⟨"regular", "LiberationMono-Regular.ttf"⟩, ⟨"bold", "LiberationMono-Bold.ttf"⟩,
      ⟨"italic", "LiberationMono-Italic.ttf"⟩, ⟨"boldItalic", "LiberationMono-BoldItalic.ttf"⟩]⟩,
   ⟨"selawik", "Selawik", some "Segoe UI",
     [⟨"regular", "Selawik-Regular.ttf"⟩, ⟨"bold", "Selawik-Bold.ttf"⟩]⟩,
   ⟨"selawik-light", "Selawik Light", some "Segoe UI Light",
     [⟨"regular", "Selawik-Light.ttf"⟩]⟩,
   ⟨"selawik-semibold", "Selawik Semibold", some "Segoe UI Semibold",
     [⟨"regular", "Selawik-Semibold.ttf"⟩]⟩,
   ⟨"selawik-semilight", "Selawik Semilight", some "Segoe UI Semilight",
     [⟨"regular", "Selawik-Semilight.ttf"⟩]⟩,
   ⟨"gelasio", "Gelasio", some "Georgia",
     [⟨"regular", "Gelasio-Regular.ttf"⟩, ⟨"bold", "Gelasio-Bold.ttf"⟩,
      ⟨"italic", "Gelasio-Italic.ttf"⟩, ⟨"boldItalic", "Gelasio-BoldItalic.ttf"⟩]⟩,
   ⟨"liberation-sans-narrow", "Liberation Sans Narrow", some "Arial Narrow",
     [⟨"regular", "LiberationSansNarrow-Regular.ttf"⟩, ⟨"bold", "LiberationSansNarrow-Bold.ttf"⟩,
      ⟨"italic", "LiberationSansNarrow-Italic.ttf"⟩,
      ⟨"boldItalic", "LiberationSansNarrow-BoldItalic.ttf"⟩]⟩,
   ⟨"tex-gyre-pagella", "TeX Gyre Pagella", some "Palatino Linotype",
     [⟨"regular", "texgyrepagella-regular.otf"⟩, ⟨"bold", "texgyrepagella-bold.otf"⟩,
      ⟨"italic", "texgyrepagella-italic.otf"⟩, ⟨"boldItalic", "texgyrepagella-bolditalic.otf"⟩]⟩,
   ⟨"tex-gyre-bonum", "TeX Gyre Bonum", some "Bookman Old Style",
     [⟨"regular", "texgyrebonum-regular.otf"⟩, ⟨"bold", "texgyrebonum-bold.otf"⟩,
      ⟨"italic", "texgyrebonum-italic.otf"⟩, ⟨"boldItalic", "texgyrebonum-bolditalic.otf"⟩]⟩,
   ⟨"tex-gyre-schola", "TeX Gyre Schola", some "Century Schoolbook",
     [⟨"regular", "texgyreschola-regular.otf"⟩, ⟨"bold", "texgyreschola-bold.otf"⟩,
      ⟨"italic", "texgyreschola-italic.otf"⟩, ⟨"boldItalic", "texgyreschola-bolditalic.otf"⟩]⟩,
   ⟨"arimo", "Arimo", none,
     [⟨"regular", "Arimo-Regular.ttf"⟩, ⟨"bold", "Arimo-Bold.ttf"⟩,
      ⟨"italic", "Arimo-Italic.ttf"⟩, ⟨"boldItalic", "Arimo-BoldItalic.ttf"⟩]⟩,
   ⟨"barlow", "Barlow", none,
     [⟨"regular", "Barlow-Regular.ttf"⟩, ⟨"bold", "Barlow-Bold.ttf"⟩,
      ⟨"italic", "Barlow-Italic.ttf"⟩, ⟨"boldItalic", "Barlow-BoldItalic.ttf"⟩]⟩,
   ⟨"barlow-light", "Barlow Light", none,
     [⟨"regular", "Barlow-Light.ttf"⟩, ⟨"italic", "Barlow-LightItalic.ttf"⟩]⟩,
   ⟨"comfortaa", "Comfortaa", none,
     [⟨"regular", "Comfortaa-Regular.ttf"⟩, ⟨"bold", "Comfortaa-Bold.ttf"⟩]⟩,
   ⟨"courier-prime", "Courier Prime", none,
     [⟨"regular", "CourierPrime-Regular.ttf"⟩, ⟨"bold", "CourierPrime-Bold.ttf"⟩,
      ⟨"italic", "CourierPrime-Italic.ttf"⟩, ⟨"boldItalic", "CourierPrime-BoldItalic.ttf"⟩]⟩,
   ⟨"fira-code", "Fira Code", none,
     [⟨"regular", "FiraCode-Regular.ttf"⟩, ⟨"bold", "FiraCode-Bold.ttf"⟩]⟩,
   ⟨"lato", "Lato", none,
     [⟨"regular", "Lato-Regular.ttf"⟩, ⟨"bold", "Lato-Bold.ttf"⟩,
      ⟨"italic", "Lato-Italic.ttf"⟩, ⟨"boldItalic", "Lato-BoldItalic.ttf"⟩]⟩,
   ⟨"lato-light", "Lato Light", none,
     [⟨"regular", "Lato-Light.ttf"⟩, ⟨"italic", "Lato-LightItalic.ttf"⟩]⟩,
   ⟨"montserrat", "Montserrat", none,
     [⟨"regular", "Montserrat-Regular.ttf"⟩, ⟨"bold", "Montserrat-Bold.ttf"⟩,
      ⟨"italic", "Montserrat-Italic.ttf"⟩, ⟨"boldItalic", "Montserrat-BoldItalic.ttf"⟩]⟩,
   ⟨"noto-sans", "Noto Sans", none,
     [⟨"regular", "NotoSans-Regular.ttf"⟩, ⟨"bold", "NotoSans-Bold.ttf"⟩,
      ⟨"italic", "NotoSans-Italic.ttf"⟩, ⟨"boldItalic", "NotoSans-BoldItalic.ttf"⟩]⟩,
   ⟨"noto-sans-symbols", "Noto Sans Symbols", none,
     [⟨"regular", "NotoSansSymbols-Regular.ttf"⟩, ⟨"bold", "NotoSansSymbols-Bold.ttf"⟩]⟩,
   ⟨"noto-serif", "Noto Serif", none,
     [⟨"regular", "NotoSerif-Regular.ttf"⟩, ⟨"bold", "NotoSerif-Bold.ttf"⟩,
      ⟨"italic", "NotoSerif-Italic.ttf"⟩, ⟨"boldItalic", "NotoSerif-BoldItalic.ttf"⟩]⟩,
   ⟨"open-sans", "Open Sans", none,
     [⟨"regular", "OpenSans-Regular.ttf"⟩, ⟨"bold", "OpenSans-Bold.ttf"⟩]⟩,
   ⟨"oswald", "Oswald", none,
     [⟨"regular", "Oswald-Regular.ttf"⟩, ⟨"bold", "Oswald-Bold.ttf"⟩]⟩,
   ⟨"play", "Play", none,
     [⟨"regular", "Play-Regular.ttf"⟩, ⟨"bold", "Play-Bold.ttf"⟩]⟩,
   ⟨"playfair-display", "Playfair Display", none,
     [⟨"regular", "PlayfairDisplay-Regular.ttf"⟩, ⟨"bold", "PlayfairDisplay-Bold.ttf"⟩,
      ⟨"italic", "PlayfairDisplay-Italic.ttf"⟩, ⟨"boldItalic", "PlayfairDisplay-BoldItalic.ttf"⟩]⟩,
   ⟨"poppins", "Poppins", none,
     [⟨"regular", "Poppins-Regular.ttf"⟩, ⟨"bold", "Poppins-Bold.ttf"⟩,
      ⟨"italic", "Poppins-Italic.ttf"⟩, ⟨"boldItalic", "Poppins-BoldItalic.ttf"⟩]⟩,
   ⟨"raleway", "Raleway", none,
     [⟨"regular", "Raleway-Regular.ttf"⟩, ⟨"bold", "Raleway-Bold.ttf"⟩,
      ⟨"italic", "Raleway-Italic.ttf"⟩, ⟨"boldItalic", "Raleway-BoldItalic.ttf"⟩]⟩,
   ⟨"roboto", "Roboto", none,
     [⟨"regular", "Roboto-Regular.ttf"⟩, ⟨"bold", "Roboto-Bold.ttf"⟩,
      ⟨"italic", "Roboto-Italic.ttf"⟩, ⟨"boldItalic", "Roboto-BoldItalic.ttf"⟩]⟩,
   ⟨"roboto-mono", "Roboto Mono", none,
     [⟨"regular", "RobotoMono-Regular.ttf"⟩, ⟨"bold", "RobotoMono-Bold.ttf"⟩,
      ⟨"italic", "RobotoMono-Italic.ttf"⟩, ⟨"boldItalic", "RobotoMono-BoldItalic.ttf"⟩]⟩,
   ⟨"roboto-slab", "Roboto Slab", none,
     [⟨"regular", "RobotoSlab-Regular.ttf"⟩, ⟨"bold", "RobotoSlab-Bold.ttf"⟩]⟩,
   ⟨"roboto-slab-light", "Roboto Slab Light", none,
     [⟨"regular", "RobotoSlab-Light.ttf"⟩]⟩,
   ⟨"roboto-slab-semibold", "Roboto Slab SemiBold", none,
     [⟨"regular", "RobotoSlab-SemiBold.ttf"⟩]⟩,
   ⟨"source-code-pro", "Source Code Pro", none,
     [⟨"regular", "SourceCodePro-Regular.ttf"⟩, ⟨"bold", "SourceCodePro-Bold.ttf"⟩,
      ⟨"italic", "SourceCodePro-Italic.ttf"⟩, ⟨"boldItalic", "SourceCodePro-BoldItalic.ttf"⟩]⟩,
   ⟨"source-sans-pro", "Source Sans Pro", none,
     [⟨"regular", "SourceSans3-Regular.ttf"⟩, ⟨"bold", "SourceSans3-Bold.ttf"⟩,
      ⟨"italic", "SourceSans3-Italic.ttf"⟩, ⟨"boldItalic", "SourceSans3-BoldItalic.ttf"⟩]⟩,
   ⟨"tinos", "Tinos", none,
     [⟨"regular", "Tinos-Regular.ttf"⟩, ⟨"bold", "Tinos-Bold.ttf"⟩,
      ⟨"italic", "Tinos-Italic.ttf"⟩, ⟨"boldItalic", "Tinos-BoldItalic.ttf"⟩]⟩,
   ⟨"ubuntu", "Ubuntu", none,
     [⟨"regular", "Ubuntu-Regular.ttf"⟩, ⟨"bold", "Ubuntu-Bold.ttf"⟩,
      ⟨"italic", "Ubuntu-Italic.ttf"⟩, ⟨"boldItalic", "Ubuntu-BoldItalic.ttf"⟩]⟩]

/-! ### Base64 (base64.b64encode, used by the module emitter) -/

def b64Chars : List Char :=
  "ABCDEFGHIJKLMNOPQRSTUVWXYZabcdefghijklmnopqrstuvwxyz0123456789+/".toList

def b64Char (n : Nat) : Char := b64Chars.getD n 'A'

-- Standard base64 of a byte list (bytes are Nats < 256).
def b64Encode : List Nat → String
  | [] => ""
  | [a] =>
    String.mk [b64Char (a / 4), b64Char (a % 4 * 16)] ++ "=="
  | [a, b] =>
    String.mk [b64Char (a / 4), b64Char (a % 4 * 16 + b / 16), b64Char (b % 16 * 4)] ++ "="
  | a :: b :: c :: rest =>
    String.mk [b64Char (a / 4), b64Char (a % 4 * 16 + b / 16),
               b64Char (b % 16 * 4 + c / 64), b64Char (c % 64)] ++ b64Encode rest

/-! ### Module emitter (generate_family_module, lines 435-455)

The fontTools subsetter (`subset_to_woff2`) reads the filesystem and runs
the external font engine, so it is modelled as an oracle
`subset : String → Except String (List Nat)` from a source file name to
either an error or the WOFF2 payload bytes; file existence
(`(FONTS_DIR / filename).exists()`) is the oracle `ex : String → Bool`. -/

-- "\n".join(lines) + "\n"
def joinLines : List String → String
  | [] => "\n"
  | [l] => l ++ "\n"
  | l :: rest => l ++ "\n" ++ joinLines rest

-- Whether an Except value is a success (an uncaught Python exception is an
-- `Except.error`).
def exceptOk {α : Type} : Except String α → Bool
  | Except.ok _ => true
  | Except.error _ => false

-- The per-variant loop body: skip absent files, otherwise subset and
-- base64-encode, collecting (variant tag, base64 text) pairs in declaration
-- order.  A subsetter error propagates (there is no try/except in the loop).
def bundledVariants (ex : String → Bool) (subset : String → Except String (List Nat)) :
    List Variant → Except String (List (String × String))
  | [] => Except.ok []
  | v :: rest =>
    if ex v.file then
      match subset v.file with
      | Except.error e => Except.error e
      | Except.ok bytes =>
        match bundledVariants ex subset rest with
        | Except.error e => Except.error e
        | Except.ok bvs => Except.ok ((v.tag, b64Encode bytes) :: bvs)
    else bundledVariants ex subset rest

-- TypeScript module content for one family: the two header lines plus one
-- export per bundled variant.
def generate_family_module (module_name : String) (fam : Family)
    (ex : String → Bool) (subset : String → Except String (List Nat)) :
    Except String String :=
  match bundledVariants ex subset fam.variants with
  | Except.error e => Except.error e
  | Except.ok bvs =>
    Except.ok (joinLines
      (["// Auto-generated by scripts/bundle-woff2-fonts.py — " ++ fam.register_as,
        "// prettier-ignore"] ++
       bvs.map (fun p => "export const " ++ p.1 ++ " = \x27" ++ p.2 ++ "\x27;")))

/-! ### Manifest builder (generate_manifest, lines 458-530) -/

-- str.lower(): lowercasing of the name strings (the catalog names are
-- ASCII, where Char.toLower agrees with Python's str.lower).
def strLower (s : String) : String := String.mk (s.data.map Char.toLower)

-- Python truthiness of the optional substitute_for string: None and "" are
-- both falsy (`if sub_for:` / `if not sub_for:`).
def truthyOpt : Option String → Option String
  | none => none
  | some s => if s.isEmpty then none else some s

-- existing_variants: the declared variants whose source file exists, in
-- declaration order.
def existingVariants (ex : String → Bool) (fam : Family) : List Variant :=
  fam.variants.filter (fun v => ex v.file)

-- Pass 1 (primary entries): keyed by register_as.lower(); skipped when no
-- declared source file exists.
def pass1Entry (ex : String → Bool) (fam : Family) : Option (String × BundledFontEntry) :=
  if existingVariants ex fam = [] then none
  else some (strLower fam.register_as,
    { module := "./" ++ fam.moduleKey ++ ".js",
      registerAs := fam.register_as,
      substituteFor := truthyOpt fam.substitute_for,
      variants := (existingVariants ex fam).map Variant.tag })

-- Pass 2 (reverse/alias entries): keyed by substitute_for.lower(); skipped
-- when substitute_for is falsy, when the lowered names coincide, or when no
-- declared source file exists.
def pass2Entry (ex : String → Bool) (fam : Family) : Option (String × BundledFontEntry) :=
  match truthyOpt fam.substitute_for with
  | none => none
  | some sub =>
    if strLower sub = strLower fam.register_as then none
    else if existingVariants ex fam = [] then none
    else some (strLower sub,
      { module := "./" ++ fam.moduleKey ++ ".js",
        registerAs := sub,
        substituteFor := some sub,
        variants := (existingVariants ex fam).map Variant.tag })

-- sorted(FONT_FAMILIES.items()): iteration sorted by the dict key.  Python's
-- sorted() is a stable sort; insertion sort is stable too.
def famLe (f g : Family) : Prop := f.moduleKey ≤ g.moduleKey

-- String ≤ coincides with the lexicographic order on the character lists
-- (String.le_iff_toList_le); deciding it through the list order keeps the
-- comparison computable by the kernel, unlike the iterator-based
-- String.decidableLE.
instance : DecidableRel famLe := fun f g =>
  decidable_of_iff (f.moduleKey.toList ≤ g.moduleKey.toList) String.le_iff_toList_le.symm

instance : IsTotal Family famLe := ⟨fun f g => le_total f.moduleKey g.moduleKey⟩

instance : IsTrans Family famLe := ⟨fun _ _ _ h1 h2 => le_trans h1 h2⟩

def sortedCatalog (catalog : List Family) : List Family :=
  catalog.insertionSort famLe

-- The ordered (key, entry) pairs the manifest emits: all pass-1 entries in
-- catalog-sorted order, then all pass-2 entries in catalog-sorted order.
def manifestPairs (catalog : List Family) (ex : String → Bool) :
    List (String × BundledFontEntry) :=
  (sortedCatalog catalog).filterMap (pass1Entry ex) ++
  (sortedCatalog catalog).filterMap (pass2Entry ex)

-- JavaScript object-literal semantics for the emitted mapping: a duplicated
-- key is overwritten by the later occurrence, so lookup folds left keeping
-- the last match.
def jsLookup (ps : List (String × BundledFontEntry)) (k : String) : Option BundledFontEntry :=
  ps.foldl (fun acc p => if p.1 = k then some p.2 else acc) none

-- json.dumps escaping of a string (the variant tags contain no specials).
def jsonEscape (s : String) : String :=
  String.mk (s.data.foldr
    (fun c acc =>
      (if c = '\\' then ['\\', '\\'] else if c = '"' then ['\\', '"'] else [c]) ++ acc) [])

def jsonStr (s : String) : String := "\"" ++ jsonEscape s ++ "\""

-- json.dumps of a list of strings (default separator is comma-space).
def jsonList (l : List String) : String :=
  "[" ++ String.intercalate ", " (l.map jsonStr) ++ "]"

-- The rendered lines of one manifest entry (pass 1 omits the substituteFor
-- line when substitute_for is falsy; pass 2 always includes it).
def entryLines (p : String × BundledFontEntry) : List String :=
  ["  \x27" ++ p.1 ++ "\x27: \x7b",
   "    module: \x27" ++ p.2.module ++ "\x27,",
   "    registerAs: \x27" ++ p.2.registerAs ++ "\x27,"] ++
  (match p.2.substituteFor with
   | some s => ["    substituteFor: \x27" ++ s ++ "\x27,"]
   | none => []) ++
  ["    variants: " ++ jsonList p.2.variants ++ ",",
   "  \x7d,"]

def manifestHeader : List String :=
  ["// Auto-generated by scripts/bundle-woff2-fonts.py",
   "",
   "export interface BundledFontEntry \x7b",
   "  /** Module path relative to this directory (without extension). */",
   "  module: string;",
   "  /** Font family name to register under. */",
   "  registerAs: string;",
   "  /** If this is a substitute for an Office font, the original name. */",
   "  substituteFor?: string;",
   "  /** Available variant names (keys exported from the module). */",
   "  variants: string[];",
   "\x7d",
   "",
   "/** All bundled font families, keyed by lowercase family name. */",
   "export const BUNDLED_FONTS: Record<string, BundledFontEntry> = \x7b"]

-- generate_manifest: header, the rendered entries of both passes, closing
-- brace, final blank line.
def generate_manifest (catalog : List Family) (ex : String → Bool) : String :=
  joinLines (manifestHeader ++
    (manifestPairs catalog ex).foldr (fun p acc => entryLines p ++ acc) [] ++
    ["\x7d;", ""])

/-! ### Pipeline driver (main, lines 533-561) -/

-- The per-family loop of main(): write one module file per family, in
-- catalog-sorted order.  An uncaught subsetter error aborts the whole run;
-- the Except models python's exception propagation.
def familyWrites (ex : String → Bool) (subset : String → Except String (List Nat)) :
    List Family → Except String (List (String × String))
  | [] => Except.ok []
  | fam :: rest =>
    match generate_family_module fam.moduleKey fam ex subset with
    | Except.error e => Except.error e
    | Except.ok content =>
      match familyWrites ex subset rest with
      | Except.error e => Except.error e
      | Except.ok ws => Except.ok ((fam.moduleKey ++ ".ts", content) :: ws)

-- main(): all module files, then manifest.ts.
def runPipeline (catalog : List Family) (ex : String → Bool)
    (subset : String → Except String (List Nat)) :
    Except String (List (String × String)) :=
  match familyWrites ex subset (sortedCatalog catalog) with
  | Except.error e => Except.error e
  | Except.ok ws => Except.ok (ws ++ [("manifest.ts", generate_manifest catalog ex)])

-- total_modules: incremented once per family in the loop, reported in the
-- final summary (only reached when the run completes).
def totalModules (catalog : List Family) (ex : String → Bool)
    (subset : String → Except String (List Nat)) : Except String Nat :=
  match familyWrites ex subset (sortedCatalog catalog) with
  | Except.error e => Except.error e
  | Except.ok ws => Except.ok ws.length

/-! ### Concrete inputs used by witnesses and counterexamples -/

def exAll : String → Bool := fun _ => true

def exNone : String → Bool := fun _ => false

def subsetAll : String → Except String (List Nat) := fun _ => Except.ok [0, 1, 2]

def subsetBad : String → Except String (List Nat) :=
  fun f => if f = "Alpha-Regular.ttf" then Except.error "boom" else Except.ok [0, 1, 2]

-- Two families that collide on the substitute name "Zed".
def famAlpha : Family := ⟨"alpha", "Alpha", some "Zed", [⟨"regular", "Alpha-Regular.ttf"⟩]⟩

def famBeta : Family := ⟨"beta", "Beta", some "Zed", [⟨"regular", "Beta-Regular.ttf"⟩]⟩

-- The spec's concrete C1 scenario: carlito with only regular and bold
-- declared, both source files present.
def famC1 : Family :=
  ⟨"carlito", "Carlito", some "Calibri",
    [⟨"regular", "Carlito-Regular.ttf"⟩, ⟨"bold", "Carlito-Bold.ttf"⟩]⟩

def exC1 : String → Bool :=
  fun f => f == "Carlito-Regular.ttf" || f == "Carlito-Bold.ttf"

-- A family with four declared variants of which exactly one file is absent.
def famDemo : Family :=
  ⟨"demo", "Demo", none,
    [⟨"regular", "Demo-Regular.ttf"⟩, ⟨"bold", "Demo-Bold.ttf"⟩,
     ⟨"italic", "Demo-Italic.ttf"⟩, ⟨"boldItalic", "Demo-BoldItalic.ttf"⟩]⟩

def exDemo : String → Bool := fun f => !(f == "Demo-Italic.ttf")

/-! ### Lemmas about the codepoint policy -/

theorem sortedRanges_head_le {r : Nat × Nat} {l : List (Nat × Nat)}
    (h : sortedRanges (r :: l) = true) : r.1 ≤ r.2 := by
  cases l with
  | nil => simpa [sortedRanges] using h
  | cons s rest =>
    simp only [sortedRanges, Bool.and_eq_true, decide_eq_true_eq] at h
    exact h.1.1

theorem sortedRanges_tail {r : Nat × Nat} {l : List (Nat × Nat)}
    (h : sortedRanges (r :: l) = true) : sortedRanges l = true := by
  cases l with
  | nil => rfl
  | cons s rest =>
    simp only [sortedRanges, Bool.and_eq_true, decide_eq_true_eq] at h
    exact h.2

theorem sortedRanges_step {r s : Nat × Nat} {l : List (Nat × Nat)}
    (h : sortedRanges (r :: s :: l) = true) : r.2 < s.1 := by
  simp only [sortedRanges, Bool.and_eq_true, decide_eq_true_eq] at h
  exact h.1.2

-- In a well-formed list, every element after the head starts at or after the
-- head's own start.
theorem sortedRanges_lower_bound :
    ∀ {l : List (Nat × Nat)} {s x : Nat × Nat},
      sortedRanges (s :: l) = true → x ∈ l → s.1 ≤ x.1
  | [], _, _, _, hx => by cases hx
  | t :: rest, s, x, h, hx => by
    have hst : s.2 < t.1 := sortedRanges_step h
    have hs : s.1 ≤ s.2 := sortedRanges_head_le h
    cases hx with
    | head => omega
    | tail _ hx' =>
      have ht : t.1 ≤ x.1 := sortedRanges_lower_bound (sortedRanges_tail h) hx'
      omega

-- If `c` lies in a gap of a well-formed list, the head's end is below `c`.
theorem gapAt_head_end :
    ∀ {l : List (Nat × Nat)} {r : Nat × Nat} {c : Nat},
      sortedRanges (r :: l) = true → gapAt (r :: l) c = true → r.2 < c
  | [], _, _, _, hg => by simp [gapAt] at hg
  | s :: rest, r, c, h, hg => by
    simp only [gapAt, Bool.or_eq_true, Bool.and_eq_true, decide_eq_true_eq] at hg
    cases hg with
    | inl h2 => exact h2.1
    | inr h2 =>
      have hs : s.2 < c := gapAt_head_end (sortedRanges_tail h) (by simpa [gapAt] using h2)
      have hrs : r.2 < s.1 := sortedRanges_step h
      have hss : s.1 ≤ s.2 := sortedRanges_head_le (sortedRanges_tail h)
      omega

-- Gap codepoints are not members of any range of a well-formed list.
theorem gapAt_not_mem :
    ∀ {l : List (Nat × Nat)} {c : Nat},
      sortedRanges l = true → gapAt l c = true → l.any (inRange c) = false
  | [], _, _, hg => by simp [gapAt] at hg
  | [r], _, _, hg => by simp [gapAt] at hg
  | r :: s :: rest, c, h, hg => by
    simp only [gapAt, Bool.or_eq_true, Bool.and_eq_true, decide_eq_true_eq] at hg
    have hrs : r.2 < s.1 := sortedRanges_step h
    have htail : sortedRanges (s :: rest) = true := sortedRanges_tail h
    cases hg with
    | inl h2 =>
      have hr : inRange c r = false := by
        simp only [inRange, Bool.and_eq_false_iff, decide_eq_false_iff_not]
        right; omega
      have hrest : (s :: rest).any (inRange c) = false := by
        rw [List.any_eq_false]
        intro x hx
        have hx1 : s.1 ≤ x.1 := by
          cases hx with
          | head => exact le_refl _
          | tail _ hx' => exact sortedRanges_lower_bound htail hx'
        simp only [inRange, Bool.and_eq_true, decide_eq_true_eq, not_and]
        omega
      simp [List.any_cons, hr, hrest]
    | inr h2 =>
      have hg' : gapAt (s :: rest) c = true := by simpa [gapAt] using h2
      have hrest : (s :: rest).any (inRange c) = false := gapAt_not_mem htail hg'
      have hse : s.2 < c := gapAt_head_end htail hg'
      have hss : s.1 ≤ s.2 := sortedRanges_head_le htail
      have hr : inRange c r = false := by
        simp only [inRange, Bool.and_eq_false_iff, decide_eq_false_iff_not]
        right; omega
      simp [List.any_cons, hr, hrest]

/-- Claim C3: every codepoint inside a declared inclusive Unicode range is a
member of the computed codepoint policy set, every codepoint lying strictly
between two consecutive declared ranges is not a member, and in particular
U+0041 is a member while U+3042 is not. -/
theorem c3_codepoint_policy :
    (∀ r ∈ UNICODE_RANGES, ∀ c : Nat, r.1 ≤ c → c ≤ r.2 → CODEPOINTS c = true) ∧
    (∀ c : Nat, gapAt UNICODE_RANGES c = true → CODEPOINTS c = false) ∧
    CODEPOINTS 0x0041 = true ∧ CODEPOINTS 0x3042 = false := by
  refine ⟨?_, ?_, by decide, by decide⟩
  · intro r hr c h1 h2
    simp only [CODEPOINTS, List.any_eq_true]
    exact ⟨r, hr, by simp [inRange, h1, h2]⟩
  · intro c hg
    have hs : sortedRanges UNICODE_RANGES = true := by decide
    simpa [CODEPOINTS] using gapAt_not_mem hs hg

/-- Witness for C3: membership of U+0021 via the first declared range, and
non-membership of U+19FF, which lies in the gap between the Latin block and
General Punctuation. -/
theorem c3_codepoint_policy_witness :
    CODEPOINTS 0x0021 = true ∧ CODEPOINTS 0x19FF = false :=
  ⟨c3_codepoint_policy.1 (0x0020, 0x024F) (by decide) 0x0021 (by decide) (by decide),
   c3_codepoint_policy.2.1 0x19FF (by decide)⟩

/-! ### Claim C1: the concrete carlito/calibri scenario -/

/-- Claim C1 (counterexample): in the spec's concrete scenario (carlito with
regular and bold declared and both files present) the manifest value at key
"carlito" does not carry the module reference string "./carlito" claimed by
the spec — the script emits "./carlito.js". -/
theorem c1_carlito_scenario_counterexample :
    jsLookup (manifestPairs [famC1] exC1) "carlito" ≠
      some ⟨"./carlito", "Carlito", some "Calibri", ["regular", "bold"]⟩ := by
  decide

/-- Claim C1 (amended): the scenario manifest contains exactly the keys
"carlito" and "calibri", in that order, with the claimed field values except
that the module reference string is "./carlito.js" (the script appends the
".js" extension). -/
theorem c1_carlito_scenario :
    manifestPairs [famC1] exC1 =
      [("carlito", ⟨"./carlito.js", "Carlito", some "Calibri", ["regular", "bold"]⟩),
       ("calibri", ⟨"./carlito.js", "Calibri", some "Calibri", ["regular", "bold"]⟩)] := by
  decide

/-! ### Claim C2: primary and alias entries per family -/

/-- Claim C2: a FamilyDefinition with at least one existing variant gets a
primary manifest entry keyed by lowercase registerAs; when it declares a
(nonempty) substituteFor whose lowercase form differs from lowercase
registerAs it additionally gets exactly one alias entry keyed by lowercase
substituteFor with the same module reference and the same variants list, and
when substituteFor is absent or equals registerAs case-insensitively the
alias entry is suppressed, leaving exactly the primary entry. -/
theorem c2_alias_entries (fam : Family) (ex : String → Bool)
    (hev : existingVariants ex fam ≠ []) :
    (∀ sub : String, fam.substitute_for = some sub → sub.isEmpty = false →
      strLower sub ≠ strLower fam.register_as →
      pass1Entry ex fam = some (strLower fam.register_as,
        ⟨"./" ++ fam.moduleKey ++ ".js", fam.register_as, some sub,
         (existingVariants ex fam).map Variant.tag⟩) ∧
      pass2Entry ex fam = some (strLower sub,
        ⟨"./" ++ fam.moduleKey ++ ".js", sub, some sub,
         (existingVariants ex fam).map Variant.tag⟩)) ∧
    ((fam.substitute_for = none ∨
        (∃ sub, fam.substitute_for = some sub ∧ strLower sub = strLower fam.register_as)) →
      pass1Entry ex fam = some (strLower fam.register_as,
        ⟨"./" ++ fam.moduleKey ++ ".js", fam.register_as, truthyOpt fam.substitute_for,
         (existingVariants ex fam).map Variant.tag⟩) ∧
      pass2Entry ex fam = none) := by
  constructor
  · intro sub hsub hne hlow
    constructor
    · rw [pass1Entry, if_neg hev, hsub]
      simp [truthyOpt, hne]
    · rw [pass2Entry, hsub]
      simp only [truthyOpt, hne, Bool.false_eq_true, if_false]
      rw [if_neg hlow, if_neg hev]
  · intro hcase
    refine ⟨by rw [pass1Entry, if_neg hev], ?_⟩
    cases hcase with
    | inl h => rw [pass2Entry, h]; rfl
    | inr h =>
      obtain ⟨sub, hsub, hlow⟩ := h
      rw [pass2Entry, hsub]
      by_cases hne : sub.isEmpty
      · simp [truthyOpt, hne]
      · simp only [truthyOpt, hne, Bool.false_eq_true, if_false]
        rw [if_pos hlow]

/-- Witness for C2: the catalog's carlito entry (substitute "Calibri"
distinct from "Carlito") yields both entries, and the catalog's
calibri-light entry (substitute equal to its register name) yields only the
primary entry, with every source file present. -/
theorem c2_alias_entries_witness :
    (pass1Entry exAll carlito = some ("carlito",
        ⟨"./carlito.js", "Carlito", some "Calibri",
         ["regular", "bold", "italic", "boldItalic"]⟩) ∧
      pass2Entry exAll carlito = some ("calibri",
        ⟨"./carlito.js", "Calibri", some "Calibri",
         ["regular", "bold", "italic", "boldItalic"]⟩)) ∧
    pass2Entry exAll calibriLight = none :=
  ⟨(c2_alias_entries carlito exAll (by decide)).1 "Calibri" rfl (by decide) (by decide),
   (((c2_alias_entries calibriLight exAll (by decide)).2
      (Or.inr ⟨"Calibri Light", rfl, by decide⟩)).2)⟩

/-! ### Claim C4: skip semantics for a single missing variant -/

theorem length_filter_split {α : Type} (p : α → Bool) (l : List α) :
    (l.filter p).length + (l.filter (fun a => !(p a))).length = l.length := by
  induction l with
  | nil => rfl
  | cons a t ih =>
    simp only [List.filter_cons]
    cases h : p a <;>
      simp only [Bool.not_true, Bool.not_false, if_true, if_false, List.length_cons,
        Bool.false_eq_true, Bool.true_eq_false, ite_false, ite_true] <;>
      omega

theorem bundledVariants_ok_of_all (ex : String → Bool)
    (subset : String → Except String (List Nat)) :
    ∀ (vs : List Variant),
      (∀ v ∈ vs, ex v.file = true → exceptOk (subset v.file) = true) →
      ∃ bvs, bundledVariants ex subset vs = Except.ok bvs ∧
        bvs.map Prod.fst = (vs.filter (fun v => ex v.file)).map Variant.tag
  | [], _ => ⟨[], rfl, rfl⟩
  | v :: rest, h => by
    obtain ⟨bvs, hok, hmap⟩ :=
      bundledVariants_ok_of_all ex subset rest (fun w hw => h w (List.mem_cons_of_mem _ hw))
    by_cases hx : ex v.file = true
    · have hs : exceptOk (subset v.file) = true := h v (List.mem_cons_self _ _) hx
      obtain ⟨bytes, hbytes⟩ : ∃ bytes, subset v.file = Except.ok bytes := by
        cases hsub : subset v.file with
        | error e => rw [hsub] at hs; simp [exceptOk] at hs
        | ok b => exact ⟨b, rfl⟩
      refine ⟨(v.tag, b64Encode bytes) :: bvs, ?_, ?_⟩
      · rw [bundledVariants, if_pos hx, hbytes, hok]
      · simp [List.filter_cons, hx, hmap]
    · have hx' : ex v.file = false := by simpa using hx
      refine ⟨bvs, ?_, ?_⟩
      · rw [bundledVariants, if_neg (by simp [hx'])]
        exact hok
      · simp [List.filter_cons, hx', hmap]

/-- Claim C4: for a family with 4 declared variants of which exactly one has
an absent source file (and a subsetter that succeeds on every present file),
module generation succeeds — the absent variant is skipped without failing
the family — the module exports exactly the 3 existing variants, named by
their tags in catalog-declaration order, and the family's primary manifest
entry lists exactly those 3 tags in the same order. -/
theorem c4_skip_semantics (fam : Family) (ex : String → Bool)
    (subset : String → Except String (List Nat))
    (h4 : fam.variants.length = 4)
    (h1 : (fam.variants.filter (fun v => !(ex v.file))).length = 1)
    (hok : ∀ v ∈ fam.variants, ex v.file = true → exceptOk (subset v.file) = true) :
    ∃ bvs, bundledVariants ex subset fam.variants = Except.ok bvs ∧
      bvs.map Prod.fst = (existingVariants ex fam).map Variant.tag ∧
      bvs.length = 3 ∧
      exceptOk (generate_family_module fam.moduleKey fam ex subset) = true ∧
      pass1Entry ex fam = some (strLower fam.register_as,
        ⟨"./" ++ fam.moduleKey ++ ".js", fam.register_as, truthyOpt fam.substitute_for,
         (existingVariants ex fam).map Variant.tag⟩) := by
  obtain ⟨bvs, hok', hmap⟩ := bundledVariants_ok_of_all ex subset fam.variants hok
  have hsplit := length_filter_split (fun v => ex v.file) fam.variants
  have h3 : (fam.variants.filter (fun v => ex v.file)).length = 3 := by omega
  have hev3 : (existingVariants ex fam).length = 3 := h3
  have hevne : existingVariants ex fam ≠ [] := by
    intro hnil; rw [hnil] at hev3; cases hev3
  refine ⟨bvs, hok', hmap, ?_, ?_, ?_⟩
  · have := congrArg List.length hmap
    simpa [h3] using this
  · rw [generate_family_module, hok']
    rfl
  · rw [pass1Entry, if_neg hevne]

/-- Witness for C4: a concrete family with four declared variants whose
italic source file is absent. -/
theorem c4_skip_semantics_witness :
    ∃ bvs, bundledVariants exDemo subsetAll famDemo.variants = Except.ok bvs ∧
      bvs.map Prod.fst = (existingVariants exDemo famDemo).map Variant.tag ∧
      bvs.length = 3 ∧
      exceptOk (generate_family_module famDemo.moduleKey famDemo exDemo subsetAll) = true ∧
      pass1Entry exDemo famDemo = some (strLower famDemo.register_as,
        ⟨"./" ++ famDemo.moduleKey ++ ".js", famDemo.register_as,
         truthyOpt famDemo.substitute_for,
         (existingVariants exDemo famDemo).map Variant.tag⟩) :=
  c4_skip_semantics famDemo exDemo subsetAll (by decide) (by decide) (by decide)

/-! ### Claim C5: zero-variant families -/

theorem bundledVariants_all_absent (ex : String → Bool)
    (subset : String → Except String (List Nat)) :
    ∀ (vs : List Variant), (∀ v ∈ vs, ex v.file = false) →
      bundledVariants ex subset vs = Except.ok []
  | [], _ => rfl
  | v :: rest, h => by
    have hx : ex v.file = false := h v (List.mem_cons_self _ _)
    rw [bundledVariants, if_neg (by simp [hx])]
    exact bundledVariants_all_absent ex subset rest (fun w hw => h w (List.mem_cons_of_mem _ hw))

theorem familyWrites_mem (ex : String → Bool) (subset : String → Except String (List Nat)) :
    ∀ (l : List Family) (ws : List (String × String)) (fam : Family) (content : String),
      familyWrites ex subset l = Except.ok ws → fam ∈ l →
      generate_family_module fam.moduleKey fam ex subset = Except.ok content →
      (fam.moduleKey ++ ".ts", content) ∈ ws := by
  intro l
  induction l with
  | nil => intro ws fam content hw hmem hgen; cases hmem
  | cons g rest ih =>
    intro ws fam content hw hmem hgen
    rw [familyWrites] at hw
    cases hg : generate_family_module g.moduleKey g ex subset with
    | error e => rw [hg] at hw; cases hw
    | ok c =>
      rw [hg] at hw
      cases hr : familyWrites ex subset rest with
      | error e => rw [hr] at hw; cases hw
      | ok ws' =>
        rw [hr] at hw
        cases hw
        cases hmem with
        | head =>
          rw [hgen] at hg
          cases hg
          exact List.mem_cons_self _ _
        | tail _ hmem' =>
          exact List.mem_cons_of_mem _ (ih ws' fam content hr hmem' hgen)

/-- Claim C5: a family whose declared source files are all absent gets no
manifest entry in either pass (so contributes no key to the output mapping),
yet the pipeline still writes a module file for it whose content is just the
two header lines — an empty module with no exports. -/
theorem c5_zero_variant (catalog : List Family) (fam : Family) (ex : String → Bool)
    (subset : String → Except String (List Nat)) (ws : List (String × String))
    (hmem : fam ∈ catalog)
    (habs : ∀ v ∈ fam.variants, ex v.file = false)
    (hrun : runPipeline catalog ex subset = Except.ok ws) :
    pass1Entry ex fam = none ∧ pass2Entry ex fam = none ∧
    manifestPairs [fam] ex = [] ∧
    (fam.moduleKey ++ ".ts",
      joinLines ["// Auto-generated by scripts/bundle-woff2-fonts.py — " ++ fam.register_as,
        "// prettier-ignore"]) ∈ ws := by
  have hev : existingVariants ex fam = [] := by
    rw [existingVariants, List.filter_eq_nil_iff]
    intro v hv
    simp [habs v hv]
  have h1 : pass1Entry ex fam = none := by rw [pass1Entry, if_pos hev]
  have h2 : pass2Entry ex fam = none := by
    rw [pass2Entry]
    cases htr : truthyOpt fam.substitute_for with
    | none => rfl
    | some sub =>
      by_cases hk : strLower sub = strLower fam.register_as
      · simp [hk]
      · simp [hk, hev]
  refine ⟨h1, h2, ?_, ?_⟩
  · have hsort : sortedCatalog [fam] = [fam] := rfl
    rw [manifestPairs, hsort]
    simp [List.filterMap, h1, h2]
  · have hgen : generate_family_module fam.moduleKey fam ex subset =
        Except.ok (joinLines
          ["// Auto-generated by scripts/bundle-woff2-fonts.py — " ++ fam.register_as,
           "// prettier-ignore"]) := by
      rw [generate_family_module, bundledVariants_all_absent ex subset fam.variants habs]
      simp
    rw [runPipeline] at hrun
    cases hw : familyWrites ex subset (sortedCatalog catalog) with
    | error e => rw [hw] at hrun; cases hrun
    | ok ws' =>
      rw [hw] at hrun
      cases hrun
      have hmem' : fam ∈ sortedCatalog catalog :=
        ((List.perm_insertionSort famLe catalog).mem_iff).mpr hmem
      exact List.mem_append_left _ (familyWrites_mem ex subset _ ws' fam _ hw hmem' hgen)

/-- Witness for C5: a one-family catalog whose only source file is absent:
the run succeeds, the manifest is empty, and the empty module is written. -/
theorem c5_zero_variant_witness :
    pass1Entry exNone famAlpha = none ∧ pass2Entry exNone famAlpha = none ∧
    manifestPairs [famAlpha] exNone = [] ∧
    ("alpha" ++ ".ts",
      joinLines ["// Auto-generated by scripts/bundle-woff2-fonts.py — " ++ "Alpha",
        "// prettier-ignore"]) ∈
      [("alpha.ts", "// Auto-generated by scripts/bundle-woff2-fonts.py — Alpha\n// prettier-ignore\n"),
       ("manifest.ts", generate_manifest [famAlpha] exNone)] :=
  c5_zero_variant [famAlpha] famAlpha exNone subsetAll
    [("alpha.ts", "// Auto-generated by scripts/bundle-woff2-fonts.py — Alpha\n// prettier-ignore\n"),
     ("manifest.ts", generate_manifest [famAlpha] exNone)]
    (by decide) (by decide) (by rfl)

/-! ### Claim C6: manifest key collisions resolve last-write-wins -/

-- The final value a JS object literal holds at a key is the value of the
-- last listed pair with that key.
theorem jsLookup_eq_getLast (k : String) :
    ∀ (ps : List (String × BundledFontEntry)),
      jsLookup ps k = ((ps.filter (fun p => p.1 = k)).getLast?).map Prod.snd := by
  intro ps
  induction ps using List.reverseRecOn with
  | nil => rfl
  | append_singleton l p ih =>
    rw [jsLookup, List.foldl_append, List.foldl_cons, List.foldl_nil, List.filter_append]
    by_cases hp : p.1 = k
    · rw [if_pos hp]
      simp [hp, List.getLast?_concat]
    · rw [if_neg hp]
      have : List.filter (fun p => decide (p.1 = k)) [p] = [] := by simp [hp]
      rw [this, List.append_nil, ← jsLookup, ih]

/-- Claim C6: for every catalog, file-existence state and manifest key, the
final value of the emitted mapping at that key (under JavaScript
object-literal semantics, where a later duplicate key overwrites an earlier
one) is the value of the last entry emitted for that key in iteration order
— pass 1 then pass 2, each pass over the catalog sorted by moduleKey, as
laid out by manifestPairs.  In particular any collision, whether two
families share a substituteFor or one family's substituteFor equals
another's registerAs, resolves to the last writer in catalog-sorted
order. -/
theorem c6_last_write_wins (catalog : List Family) (ex : String → Bool) (k : String) :
    jsLookup (manifestPairs catalog ex) k =
      (((manifestPairs catalog ex).filter (fun p => p.1 = k)).getLast?).map Prod.snd :=
  jsLookup_eq_getLast k (manifestPairs catalog ex)

/-! ### Claims C7/C8: subsetter failures abort the whole run -/

theorem bundledVariants_ok_sub (ex : String → Bool)
    (subset : String → Except String (List Nat)) :
    ∀ (vs : List Variant) (bvs : List (String × String)),
      bundledVariants ex subset vs = Except.ok bvs →
      ∀ v ∈ vs, ex v.file = true → exceptOk (subset v.file) = true := by
  intro vs
  induction vs with
  | nil => intro bvs hok v hv; cases hv
  | cons w rest ih =>
    intro bvs hok v hv hex
    rw [bundledVariants] at hok
    by_cases hw : ex w.file = true
    · rw [if_pos hw] at hok
      cases hsub : subset w.file with
      | error e => rw [hsub] at hok; cases hok
      | ok bytes =>
        rw [hsub] at hok
        cases hr : bundledVariants ex subset rest with
        | error e => rw [hr] at hok; cases hok
        | ok bvs' =>
          cases hv with
          | head => rw [hsub]; rfl
          | tail _ hv' => exact ih bvs' hr v hv' hex
    · rw [if_neg hw] at hok
      cases hv with
      | head => exact absurd hex hw
      | tail _ hv' => exact ih bvs hok v hv' hex

theorem generate_family_module_ok_sub (fam : Family) (ex : String → Bool)
    (subset : String → Except String (List Nat)) (content : String)
    (hgen : generate_family_module fam.moduleKey fam ex subset = Except.ok content) :
    ∀ v ∈ fam.variants, ex v.file = true → exceptOk (subset v.file) = true := by
  rw [generate_family_module] at hgen
  cases hb : bundledVariants ex subset fam.variants with
  | error e => rw [hb] at hgen; cases hgen
  | ok bvs => exact bundledVariants_ok_sub ex subset fam.variants bvs hb

theorem familyWrites_all_ok (ex : String → Bool)
    (subset : String → Except String (List Nat)) :
    ∀ (l : List Family) (ws : List (String × String)),
      familyWrites ex subset l = Except.ok ws →
      ∀ f ∈ l, ∃ content,
        generate_family_module f.moduleKey f ex subset = Except.ok content := by
  intro l
  induction l with
  | nil => intro ws hw f hf; cases hf
  | cons g rest ih =>
    intro ws hw f hf
    rw [familyWrites] at hw
    cases hg : generate_family_module g.moduleKey g ex subset with
    | error e => rw [hg] at hw; cases hw
    | ok c =>
      rw [hg] at hw
      cases hr : familyWrites ex subset rest with
      | error e => rw [hr] at hw; cases hw
      | ok ws' =>
        cases hf with
        | head => exact ⟨c, hg⟩
        | tail _ hf' => exact ih ws' hr f hf'

/-- Claim C7: if any family of the catalog has a present variant on which
the subsetter fails, the whole run fails: the error propagates out of
per-family module generation uncaught, no write list is produced and the
manifest is never emitted. -/
theorem c7_subset_failure_fatal (catalog : List Family) (ex : String → Bool)
    (subset : String → Except String (List Nat)) (f : Family) (v : Variant) (e : String)
    (hf : f ∈ catalog) (hv : v ∈ f.variants)
    (hex : ex v.file = true) (herr : subset v.file = Except.error e) :
    exceptOk (runPipeline catalog ex subset) = false := by
  cases hrun : familyWrites ex subset (sortedCatalog catalog) with
  | error e2 => rw [runPipeline, hrun]; rfl
  | ok ws =>
    exfalso
    have hf' : f ∈ sortedCatalog catalog :=
      ((List.perm_insertionSort famLe catalog).mem_iff).mpr hf
    obtain ⟨content, hgen⟩ := familyWrites_all_ok ex subset _ ws hrun f hf'
    have := generate_family_module_ok_sub f ex subset content hgen v hv hex
    rw [herr] at this
    cases this

/-- Witness for C7: a two-family catalog where the subsetter fails on
famAlpha's present regular variant; the whole run reports failure. -/
theorem c7_subset_failure_fatal_witness :
    exceptOk (runPipeline [famAlpha, famBeta] exAll subsetBad) = false :=
  c7_subset_failure_fatal [famAlpha, famBeta] exAll subsetBad famAlpha
    ⟨"regular", "Alpha-Regular.ttf"⟩ "boom"
    (by decide) (by decide) (by decide) (by rfl)

/-- Claim C8 (counterexample): a single variant's subsetter failure is not
contained to that variant — with famAlpha's only variant failing and every
one of famBeta's files healthy, the whole run aborts with the error and the
remaining family famBeta produces no output, contradicting the claim that
such a failure is fatal only for the single variant. -/
theorem c8_per_variant_counterexample :
    exAll "Alpha-Regular.ttf" = true ∧
    subsetBad "Alpha-Regular.ttf" = Except.error "boom" ∧
    (∀ v ∈ famBeta.variants, exceptOk (subsetBad v.file) = true) ∧
    runPipeline [famAlpha, famBeta] exAll subsetBad = Except.error "boom" := by
  refine ⟨?_, ?_, ?_, ?_⟩
  · rfl
  · rfl
  · decide
  · rfl

theorem bundledVariants_isOk_of_all (ex : String → Bool)
    (subset : String → Except String (List Nat)) (vs : List Variant)
    (h : ∀ v ∈ vs, ex v.file = true → exceptOk (subset v.file) = true) :
    ∃ bvs, bundledVariants ex subset vs = Except.ok bvs :=
  (bundledVariants_ok_of_all ex subset vs h).imp (fun _ hp => hp.1)

theorem familyWrites_ok_of_all (ex : String → Bool)
    (subset : String → Except String (List Nat)) :
    ∀ (l : List Family),
      (∀ f ∈ l, ∀ v ∈ f.variants, ex v.file = true → exceptOk (subset v.file) = true) →
      ∃ ws, familyWrites ex subset l = Except.ok ws
  | [], _ => ⟨[], rfl⟩
  | g :: rest, h => by
    obtain ⟨bvs, hb⟩ := bundledVariants_isOk_of_all ex subset g.variants
      (h g (List.mem_cons_self _ _))
    obtain ⟨ws', hr⟩ := familyWrites_ok_of_all ex subset rest
      (fun f hf => h f (List.mem_cons_of_mem _ hf))
    simp only [familyWrites, generate_family_module, hb, hr]
    exact ⟨_, rfl⟩

/-- Claim C8 (amended): a subsetter failure on a present source file is
fatal for the whole run, not just the variant — the pipeline run succeeds
exactly when the subsetter succeeds on every present variant of every
family of the catalog. -/
theorem c8_run_ok_iff (catalog : List Family) (ex : String → Bool)
    (subset : String → Except String (List Nat)) :
    exceptOk (runPipeline catalog ex subset) = true ↔
    ∀ f ∈ catalog, ∀ v ∈ f.variants, ex v.file = true →
      exceptOk (subset v.file) = true := by
  constructor
  · intro hok f hf v hv hex
    cases hrun : familyWrites ex subset (sortedCatalog catalog) with
    | error e => rw [runPipeline, hrun] at hok; cases hok
    | ok ws =>
      have hf' : f ∈ sortedCatalog catalog :=
        ((List.perm_insertionSort famLe catalog).mem_iff).mpr hf
      obtain ⟨content, hgen⟩ := familyWrites_all_ok ex subset _ ws hrun f hf'
      exact generate_family_module_ok_sub f ex subset content hgen v hv hex
  · intro hall
    have hall' : ∀ f ∈ sortedCatalog catalog, ∀ v ∈ f.variants,
        ex v.file = true → exceptOk (subset v.file) = true := by
      intro f hf
      exact hall f (((List.perm_insertionSort famLe catalog).mem_iff).mp hf)
    obtain ⟨ws, hws⟩ := familyWrites_ok_of_all ex subset (sortedCatalog catalog) hall'
    rw [runPipeline, hws]
    rfl

/-- Witness for C8 (amended): with a subsetter that succeeds everywhere, the
two-family run succeeds. -/
theorem c8_run_ok_iff_witness :
    exceptOk (runPipeline [famAlpha, famBeta] exAll subsetAll) = true :=
  (c8_run_ok_iff [famAlpha, famBeta] exAll subsetAll).mpr (by decide)

/-! ### Claim C9: deterministic outputs via the fixed sort order -/

theorem sorted_perm_nodup_eq :
    ∀ (l1 l2 : List Family), l1.Sorted famLe → l2.Sorted famLe → l1.Perm l2 →
      (l1.map Family.moduleKey).Nodup → l1 = l2 := by
  intro l1
  induction l1 with
  | nil => intro l2 _ _ hperm _; exact hperm.nil_eq
  | cons a t1 ih =>
    intro l2 hs1 hs2 hperm hnd
    have ha2 : a ∈ l2 := hperm.mem_iff.mp (List.mem_cons_self a t1)
    cases l2 with
    | nil => cases ha2
    | cons b t2 =>
      have hnd1 : a.moduleKey ∉ t1.map Family.moduleKey :=
        (List.nodup_cons.mp (by simpa using hnd)).1
      have hab : a = b := by
        rcases List.mem_cons.mp ha2 with h | h
        · exact h
        · have hb1 : b ∈ a :: t1 := hperm.symm.mem_iff.mp (List.mem_cons_self b t2)
          rcases List.mem_cons.mp hb1 with h' | h'
          · exact h'.symm
          · have h1 : famLe a b := (List.sorted_cons.mp hs1).1 b h'
            have h2 : famLe b a := (List.sorted_cons.mp hs2).1 a h
            have hkey : a.moduleKey = b.moduleKey := le_antisymm h1 h2
            exact absurd (hkey ▸ List.mem_map_of_mem Family.moduleKey h') hnd1
      subst hab
      have hperm' : t1.Perm t2 := hperm.cons_inv
      rw [ih t2 (List.sorted_cons.mp hs1).2 (List.sorted_cons.mp hs2).2 hperm'
        ((List.nodup_cons.mp (by simpa using hnd)).2)]

theorem sortedCatalog_eq_of_perm (c1 c2 : List Family) (hperm : c1.Perm c2)
    (hnd : (c1.map Family.moduleKey).Nodup) :
    sortedCatalog c1 = sortedCatalog c2 := by
  apply sorted_perm_nodup_eq
  · exact List.sorted_insertionSort famLe c1
  · exact List.sorted_insertionSort famLe c2
  · exact (List.perm_insertionSort famLe c1).trans
      (hperm.trans (List.perm_insertionSort famLe c2).symm)
  · exact (((List.perm_insertionSort famLe c1).map Family.moduleKey).nodup_iff).mpr hnd

/-- Claim C9: for a fixed existence oracle and subsetter, the pipeline's
outputs (module writes and manifest text) are a deterministic function of
the catalog contents: re-running yields the same outputs, and even
presenting the catalog in a different order (any permutation, keys being
unique) yields byte-identical module writes and manifest content, because
every pass iterates the catalog in the fixed moduleKey sort order. -/
theorem c9_determinism (c1 c2 : List Family) (ex : String → Bool)
    (subset : String → Except String (List Nat))
    (hperm : c1.Perm c2) (hnd : (c1.map Family.moduleKey).Nodup) :
    runPipeline c1 ex subset = runPipeline c2 ex subset ∧
    generate_manifest c1 ex = generate_manifest c2 ex := by
  have h := sortedCatalog_eq_of_perm c1 c2 hperm hnd
  constructor
  · simp only [runPipeline, generate_manifest, manifestPairs, h]
  · simp only [generate_manifest, manifestPairs, h]

/-- Witness for C9: the two-family catalog given in either order produces
identical pipeline output. -/
theorem c9_determinism_witness :
    runPipeline [famAlpha, famBeta] exAll subsetAll =
      runPipeline [famBeta, famAlpha] exAll subsetAll :=
  (c9_determinism [famAlpha, famBeta] [famBeta, famAlpha] exAll subsetAll
    (List.Perm.swap famBeta famAlpha []) (by decide)).1

/-! ### Claim C10: the reported module count -/

theorem familyWrites_length (ex : String → Bool)
    (subset : String → Except String (List Nat)) :
    ∀ (l : List Family) (ws : List (String × String)),
      familyWrites ex subset l = Except.ok ws → ws.length = l.length := by
  intro l
  induction l with
  | nil =>
    intro ws hw
    cases hw
    rfl
  | cons g rest ih =>
    intro ws hw
    rw [familyWrites] at hw
    cases hg : generate_family_module g.moduleKey g ex subset with
    | error e => rw [hg] at hw; cases hw
    | ok c =>
      rw [hg] at hw
      cases hr : familyWrites ex subset rest with
      | error e => rw [hr] at hw; cases hw
      | ok ws' =>
        rw [hr] at hw
        cases hw
        simp [ih ws' hr]

/-- Claim C10: whenever the pipeline loop completes, the module count of the
final summary equals the total number of catalog families, whatever the
file-existence oracle says — a family with zero available variants is still
counted, because the counter is incremented once per family
unconditionally. -/
theorem c10_module_count (catalog : List Family) (ex : String → Bool)
    (subset : String → Except String (List Nat)) (n : Nat)
    (h : totalModules catalog ex subset = Except.ok n) : n = catalog.length := by
  rw [totalModules] at h
  cases hw : familyWrites ex subset (sortedCatalog catalog) with
  | error e => rw [hw] at h; cases h
  | ok ws =>
    rw [hw] at h
    cases h
    rw [familyWrites_length ex subset _ ws hw]
    exact (List.perm_insertionSort famLe catalog).length_eq

/-- Witness for C10: a two-family catalog with every source file absent
still reports two modules. -/
theorem c10_module_count_witness :
    totalModules [famAlpha, famBeta] exNone subsetAll = Except.ok 2 ∧
    2 = ([famAlpha, famBeta] : List Family).length :=
  ⟨rfl, c10_module_count [famAlpha, famBeta] exNone subsetAll 2 rfl⟩
